import Mathlib

/-!
# Full-Buff/autobot: the `update` command handler of `src/index.js`

A shallow embedding of the `interactionCreate` handler (lines 75-211 of
`src/index.js`) together with the fragment of JavaScript semantics it relies
on: truthiness, property access, `Array.isArray`, `typeof`, `Object.keys`,
`String.prototype.toLowerCase` / `includes`, and exceptions.

The handler is asynchronous and side-effecting.  It is modelled as a pure
function from its inputs (process environment, interaction, outcome of the
single `axios.post`) to the sequence of externally visible effects it performs
and its completion (normal return, or an exception that escapes the handler).

Modelling conventions.
* Calls on the reply channel (`reply`, `deferReply`, `editReply`) succeed.
* `console.log` / `console.warn` / `console.error` are not recorded.
* `EmbedBuilder` is the builder of discord.js.  `setDescription` runs the
  library's check of its argument (a string of 1 to 4096 UTF-16 code units, or
  `null`) and throws when the check fails; this matters on lines 175 and 203,
  where the argument comes from the webhook.  The texts the handler composes
  itself (literals, the table name, the integer id) pass the checks.
* `setTimestamp()` is recorded as a flag, the clock is not modelled.
-/

namespace Autobot

/-! ## JavaScript values -/

/-- A value as `axios` hands it over in `response.data`: a parsed JSON document,
a raw string for a body that is not JSON, or `undefined`.  Finite JSON numbers
are rationals.  An object is the list of its own properties. -/
inductive JsValue where
  | undefined : JsValue
  | null : JsValue
  | bool (b : Bool) : JsValue
  | number (q : ℚ) : JsValue
  | string (s : String) : JsValue
  | array (elems : List JsValue) : JsValue
  | object (props : List (String × JsValue)) : JsValue

/-- An exception value.  `typeError` is raised by the runtime itself (property
access on `null` / `undefined`, call of something that is not a function);
`validationError` is thrown by a setter of `EmbedBuilder` whose argument fails
the library's check; neither has a `response` property.  `requestError` is a
rejection of `axios.post`; `response` is `none` when `error.response` is
undefined and `some d` when `error.response` exists with
`error.response.data = d`. -/
inductive JsError where
  | typeError : JsError
  | validationError : JsError
  | requestError (response : Option JsValue) : JsError

/-- The value of `error.response`, reduced to its `data` field. -/
def JsError.response : JsError → Option JsValue
  | .typeError => none
  | .validationError => none
  | .requestError r => r

/-- JavaScript `ToBoolean`. -/
def truthy : JsValue → Bool
  | .undefined => false
  | .null => false
  | .bool b => b
  | .number q => decide (q ≠ 0)
  | .string s => decide (s ≠ "")
  | .array _ => true
  | .object _ => true

/-- The builtin `Array.isArray(v)`. -/
def isArray : JsValue → Bool
  | .array _ => true
  | _ => false

/-- The test `typeof v === 'object'` (true of `null` as well). -/
def typeofObject : JsValue → Bool
  | .null => true
  | .array _ => true
  | .object _ => true
  | _ => false

/-- The value `v.length` of an array. -/
def arrayLength : JsValue → Nat
  | .array elems => elems.length
  | _ => 0

/-- The value `Object.keys(v).length` for an array (its indices) or an object
(its own properties).  The handler evaluates it only on a truthy value whose
`typeof` is `'object'`. -/
def keysLength : JsValue → Nat
  | .array elems => elems.length
  | .object props => props.length
  | _ => 0

/-- The element access `v[0]`. -/
def first : JsValue → JsValue
  | .array (x :: _) => x
  | _ => .undefined

/-- The property access `v.message`.  It raises a `TypeError` on `null` and
`undefined`; an object yields its own property `message` (no prototype defines
one); every other value yields `undefined`. -/
def getMessage : JsValue → Except JsError JsValue
  | .undefined => .error .typeError
  | .null => .error .typeError
  | .object props => .ok ((props.lookup "message").getD .undefined)
  | _ => .ok .undefined

/-- The method `String.prototype.toLowerCase`, on the ASCII letters.  The
keywords looked for afterwards are ASCII, and no character outside ASCII
lower-cases to one of their letters in a way that completes a keyword. -/
def toLowerCase (s : String) : String :=
  ⟨s.data.map Char.toLower⟩

/-- Whether the character list `t` occurs in `s` as a contiguous block. -/
def includesList (t : List Char) : List Char → Bool
  | [] => t.isPrefixOf []
  | c :: cs => t.isPrefixOf (c :: cs) || includesList t cs

/-- The method `String.prototype.includes`. -/
def includes (s t : String) : Bool :=
  includesList t.data s.data

/-- The property `s.length` of a string: its number of UTF-16 code units, two
for a character outside the basic multilingual plane. -/
def utf16Length (s : String) : Nat :=
  (s.data.map fun c => if c.toNat < 0x10000 then 1 else 2).sum

/-- The call `message.toLowerCase()`.  Only a string has that method; on any
other truthy JSON value the call raises a `TypeError`. -/
def callToLowerCase : JsValue → Except JsError String
  | .string s => .ok (toLowerCase s)
  | _ => .error .typeError

/-! ## Configuration and inputs -/

/-- The process environment, reduced to the variable the handler depends on:
`process.env.WEBHOOK_RGL_SEASONS`, a string when set. -/
structure Env where
  WEBHOOK_RGL_SEASONS : Option String

/-- The own properties of the object literal `WEBHOOKS` (lines 19-22). -/
def WEBHOOKS (env : Env) : List (String × Option String) :=
  [("tf2_rgl_seasons", env.WEBHOOK_RGL_SEASONS)]

/-- The names every object literal inherits from `Object.prototype`. -/
def objectPrototypeNames : List String :=
  ["constructor", "__defineGetter__", "__defineSetter__", "hasOwnProperty",
   "__lookupGetter__", "__lookupSetter__", "isPrototypeOf", "propertyIsEnumerable",
   "toString", "valueOf", "__proto__", "toLocaleString"]

/-- What a lookup `WEBHOOKS[table]` evaluates to: `undefined`, the string of an
own property, or a builtin reached through the prototype chain. -/
inductive PropValue where
  | undefined : PropValue
  | url (s : String) : PropValue
  | inherited (name : String) : PropValue

/-- The lookup `WEBHOOKS[table]`: an own property first, then `Object.prototype`. -/
def webhookFor (env : Env) (table : String) : PropValue :=
  match (WEBHOOKS env).lookup table with
  | some (some u) => .url u
  | some none => .undefined
  | none => if table ∈ objectPrototypeNames then .inherited table else .undefined

/-- JavaScript `ToBoolean` on the result of the lookup; the inherited builtins
are functions or objects, hence truthy. -/
def PropValue.truthy : PropValue → Bool
  | .undefined => false
  | .url s => decide (s ≠ "")
  | .inherited _ => true

/-- The fields of `interaction.user` the handler reads. -/
structure User where
  id : String
  username : String
  discriminator : Option String
  globalName : Option String

/-- The fields of the interaction the handler reads: `isCommand()`,
`commandName`, `options.getString('table')`, `options.getInteger('id')`, `user`. -/
structure Interaction where
  isCommand : Bool
  commandName : String
  table : String
  id : Int
  user : User

/-- The expression `x || d` for an optional string `x`: `d` replaces a missing
and an empty string. -/
def orString (x : Option String) (d : String) : String :=
  match x with
  | some s => if s ≠ "" then s else d
  | none => d

/-! ## Embeds and effects -/

/-- One entry of `addFields`. -/
structure EmbedField where
  name : String
  value : String
  inline : Option Bool

/-- The state of an `EmbedBuilder`. -/
structure EmbedBuilder where
  title : Option String
  description : Option JsValue
  color : Option Nat
  fields : List EmbedField
  timestamp : Bool

namespace EmbedBuilder

/-- The constructor call `new EmbedBuilder()`. -/
def new : EmbedBuilder :=
  { title := none, description := none, color := none, fields := [], timestamp := false }

/-- The setter `setTitle`. -/
def setTitle (e : EmbedBuilder) (t : String) : EmbedBuilder := { e with title := some t }

/-- The check `setDescription` makes of its argument: a string of 1 to 4096
UTF-16 code units, or `null`. -/
def descriptionPredicate : JsValue → Bool
  | .string s => decide (1 ≤ utf16Length s) && decide (utf16Length s ≤ 4096)
  | .null => true
  | _ => false

/-- The setter `setDescription`: it throws when the check of its argument
fails, and stores the argument otherwise (`null` clears the description). -/
def setDescription (e : EmbedBuilder) (d : JsValue) : Except JsError EmbedBuilder :=
  if descriptionPredicate d then
    match d with
    | .null => .ok { e with description := none }
    | _ => .ok { e with description := some d }
  else .error .validationError

/-- The setter `setDescription` on a text the handler composes itself (lines
102, 137 and 170): a literal, or a literal around the table name and the
integer id.  Such a text passes the check, so the call returns. -/
def setDescriptionText (e : EmbedBuilder) (t : String) : EmbedBuilder :=
  { e with description := some (.string t) }

/-- The setter `setColor`. -/
def setColor (e : EmbedBuilder) (c : Nat) : EmbedBuilder := { e with color := some c }

/-- The method `addFields` with one field. -/
def addFields (e : EmbedBuilder) (f : EmbedField) : EmbedBuilder :=
  { e with fields := e.fields ++ [f] }

/-- The call `setTimestamp()`. -/
def setTimestamp (e : EmbedBuilder) : EmbedBuilder := { e with timestamp := true }

end EmbedBuilder

/-- An externally visible action of the handler. -/
inductive Effect where
  | reply (content : String) (ephemeral : Bool) : Effect
  | deferReply : Effect
  | editReply (embeds : List EmbedBuilder) : Effect
  | post (url : PropValue) (body : JsValue) : Effect

/-- Colour of an embed in progress and of an informational result. -/
def orange : Nat := 0xFFA500
/-- Colour of a successful result. -/
def green : Nat := 0x00FF00
/-- Colour of an error. -/
def red : Nat := 0xFF0000

/-- The rejection text of line 87. -/
def notConfiguredText (table : String) : String :=
  "Error: Table '" ++ table ++ "' is not configured for updates."

/-- The embed of lines 100-105.  The integer option `id` is interpolated in
decimal. -/
def pendingEmbed (table : String) (id : Int) : EmbedBuilder :=
  ((((EmbedBuilder.new.setTitle "🔄 Processing Update Request").setDescriptionText
    ("Request to update table `" ++ table ++ "` with ID `" ++ toString id
      ++ "` has been submitted.")).setColor orange).addFields
    { name := "Status", value := "Waiting for backend workflow to complete...",
      inline := some true }).setTimestamp

/-- The request body of lines 111-120. -/
def payload (i : Interaction) : JsValue :=
  .object
    [("table", .string i.table),
     ("id", .number i.id),
     ("user", .object
        [("id", .string i.user.id),
         ("username", .string i.user.username),
         ("tag", .string (i.user.username ++ "#" ++ orString i.user.discriminator "0")),
         ("globalName", .string (orString i.user.globalName i.user.username))])]

/-- The condition of lines 126-128. -/
def isEmptyResponse (data : JsValue) : Bool :=
  !truthy data || (isArray data && arrayLength data == 0) ||
    (typeofObject data && keysLength data == 0)

/-- The embed of lines 135-140. -/
def emptyResponseEmbed : EmbedBuilder :=
  ((((EmbedBuilder.new.setTitle "❌ Update Request Issue").setDescriptionText
    "The workflow completed but returned no response data.").addFields
    { name := "Suggestion",
      value := "Please check the backend workflow for errors or missing response nodes.",
      inline := none }).setColor red).setTimestamp

/-- Which assignment produced the final value of the variable `message`:
line 153, line 164, or the initialisation of line 148. -/
inductive Branch where
  | firstElement : Branch
  | direct : Branch
  | initial : Branch
  deriving DecidableEq

/-- The initial value of `message` (line 148). -/
def defaultMessage : JsValue := .string "Request processed."

/-- The conditions of lines 152 and 162 with the assignments of lines 153 and
164: the final value of `message` and the branch that was taken. -/
def extractMessage (data : JsValue) : Except JsError (JsValue × Branch) := do
  let viaArray ←
    if isArray data && decide (arrayLength data > 0) then do
      let m ← getMessage (first data)
      pure (truthy m)
    else pure false
  if viaArray then do
    let m ← getMessage (first data)
    pure (m, Branch.firstElement)
  else do
    let m ← getMessage data
    if truthy m then do
      let m2 ← getMessage data
      pure (m2, Branch.direct)
    else pure (defaultMessage, Branch.initial)

/-- The condition of lines 157-159 and the assignment of line 160: the value of
`success` afterwards. -/
def keywordHeuristic (message : JsValue) : Except JsError Bool := do
  let l1 ← callToLowerCase message
  if includes l1 "error" then pure false
  else do
    let l2 ← callToLowerCase message
    if includes l2 "failed" then pure false
    else do
      let l3 ← callToLowerCase message
      if includes l3 "not found" then pure false else pure true

/-- Lines 148-165: the final values of `message` and `success`. -/
def processResponse (data : JsValue) : Except JsError (JsValue × Bool) := do
  let (message, branch) ← extractMessage data
  let success ←
    match branch with
    | Branch.firstElement => keywordHeuristic message
    | _ => pure true
  pure (message, success)

/-- The embed of lines 168-175; the call of line 175 throws when `message`
fails the check of `setDescription`. -/
def resultEmbed (table : String) (id : Int) (message : JsValue) (success : Bool) :
    Except JsError EmbedBuilder :=
  ((((EmbedBuilder.new.setTitle "Update Request Completed").setDescriptionText
    ("Request to update table `" ++ table ++ "` with ID `" ++ toString id
      ++ "` has finished processing.")).setColor
    (if success then green else orange)).setTimestamp).setDescription message

/-- The initial value of `errorMessage` (line 184). -/
def fallbackMessage : JsValue := .string "There was an error processing your request."

/-- Lines 184-193: the final value of `errorMessage`, given `error.response`. -/
def extractErrorMessage (response : Option JsValue) : Except JsError JsValue :=
  match response with
  | none => pure fallbackMessage
  | some data =>
    if truthy data then
      if isArray data && decide (arrayLength data > 0) then do
        let m ← getMessage (first data)
        pure (if truthy m then m else fallbackMessage)
      else do
        let m ← getMessage data
        if truthy m then do
          let m2 ← getMessage data
          pure (if truthy m2 then m2 else fallbackMessage)
        else pure fallbackMessage
    else pure fallbackMessage

/-- The embed of lines 201-205; the call of line 203 throws when `errorMessage`
fails the check of `setDescription`. -/
def errorEmbed (errorMessage : JsValue) : Except JsError EmbedBuilder := do
  let described ← (EmbedBuilder.new.setTitle "❌ Update Failed").setDescription errorMessage
  pure ((described.setColor red).setTimestamp)

/-! ## The handler -/

/-- The effects of a run and how it ended: `.ok ()` for a normal return,
`.error e` for an exception raised and not caught. -/
abbrev Run := List Effect × Except JsError Unit

/-- The `try` block, lines 94-178.  `result` is the outcome of the awaited
`axios.post`: the `data` of the response, or the rejection. -/
def tryBlock (env : Env) (i : Interaction) (result : Except JsError JsValue) : Run :=
  let before : List Effect :=
    [Effect.deferReply,
     Effect.editReply [pendingEmbed i.table i.id],
     Effect.post (webhookFor env i.table) (payload i)]
  match result with
  | .error e => (before, .error e)
  | .ok data =>
    if isEmptyResponse data then
      (before ++ [Effect.editReply [emptyResponseEmbed]], .ok ())
    else
      match processResponse data with
      | .error e => (before, .error e)
      | .ok (message, success) =>
        match resultEmbed i.table i.id message success with
        | .error e => (before, .error e)
        | .ok embed => (before ++ [Effect.editReply [embed]], .ok ())

/-- The `catch` block, lines 181-207. -/
def catchBlock (error : JsError) : Run :=
  match extractErrorMessage error.response with
  | .error e => ([], .error e)
  | .ok errorMessage =>
    match errorEmbed errorMessage with
    | .error e => ([], .error e)
    | .ok embed => ([Effect.editReply [embed]], .ok ())

/-- The `interactionCreate` handler, lines 75-211. -/
def handler (env : Env) (i : Interaction) (result : Except JsError JsValue) : Run :=
  if !i.isCommand then ([], .ok ())
  else if i.commandName = "update" then
    if !(webhookFor env i.table).truthy then
      ([Effect.reply (notConfiguredText i.table) true], .ok ())
    else
      match tryBlock env i result with
      | (effects, .ok ()) => (effects, .ok ())
      | (effects, .error e) =>
        let (more, outcome) := catchBlock e
        (effects ++ more, outcome)
  else ([], .ok ())

/-! ## Reading a run -/

/-- Whether an effect is the HTTP POST. -/
def Effect.isPost : Effect → Bool
  | .post _ _ => true
  | _ => false

/-- Whether an effect is a status message, that is an edit of the reply. -/
def Effect.isStatus : Effect → Bool
  | .editReply _ => true
  | _ => false

/-- The effects that precede the first HTTP POST. -/
def beforePost : List Effect → List Effect
  | [] => []
  | e :: es => if e.isPost then [] else e :: beforePost es

/-- The effects that follow the first HTTP POST. -/
def afterPost : List Effect → List Effect
  | [] => []
  | e :: es => if e.isPost then es else afterPost es

/-- Number of pending status messages: those emitted before the POST. -/
def pendingCount (effects : List Effect) : Nat :=
  ((beforePost effects).filter Effect.isStatus).length

/-- Number of terminal status messages: those emitted after the POST. -/
def terminalCount (effects : List Effect) : Nat :=
  ((afterPost effects).filter Effect.isStatus).length

/-! ## Sample inputs -/

/-- An environment with the webhook of `tf2_rgl_seasons` configured. -/
def sampleEnv : Env := { WEBHOOK_RGL_SEASONS := some "https://n8n.example/webhook/rgl" }

/-- A user with the new-style username (discriminator `0`, a display name). -/
def sampleUser : User :=
  { id := "80351110224678912", username := "nelly", discriminator := some "0",
    globalName := some "Nelly" }

/-- The command `/update table:tf2_rgl_seasons id:42`. -/
def sampleInteraction : Interaction :=
  { isCommand := true, commandName := "update", table := "tf2_rgl_seasons", id := 42,
    user := sampleUser }

/-- The same command with a table the registry does not list. -/
def unlistedInteraction (table : String) : Interaction :=
  { sampleInteraction with table := table }

/-- A run of the sample command that goes through the POST and ends with the
terminal embed `terminal`. -/
def sampleRun (terminal : EmbedBuilder) : Run :=
  ([Effect.deferReply,
    Effect.editReply [pendingEmbed "tf2_rgl_seasons" 42],
    Effect.post (.url "https://n8n.example/webhook/rgl") (payload sampleInteraction),
    Effect.editReply [terminal]], .ok ())

/-- The run of the sample command that ends after the POST, the exception `e`
escaping the handler: the pending message is the last state of the reply. -/
def sampleRunEscaping (e : JsError) : Run :=
  ([Effect.deferReply,
    Effect.editReply [pendingEmbed "tf2_rgl_seasons" 42],
    Effect.post (.url "https://n8n.example/webhook/rgl") (payload sampleInteraction)],
   .error e)

/-- The terminal embed of the `catch` block with the fallback text. -/
def fallbackEmbed : EmbedBuilder :=
  { title := some "❌ Update Failed",
    description := some (.string "There was an error processing your request."),
    color := some 0xFF0000,
    fields := [],
    timestamp := true }

/-- A text of 4097 characters, one more than a description may hold. -/
def longText : String := ⟨List.replicate 4097 'a'⟩

/-! ## Shared lemmas -/


theorem handler_update (env : Env) (i : Interaction) (result : Except JsError JsValue)
    (hc : i.isCommand = true) (hn : i.commandName = "update")
    (hw : (webhookFor env i.table).truthy = true) :
    handler env i result =
      match tryBlock env i result with
      | (effects, .ok ()) => (effects, .ok ())
      | (effects, .error e) => (effects ++ (catchBlock e).1, (catchBlock e).2) := by
  simp [handler, hc, hn, hw]

theorem webhookFor_url (env : Env) (table u : String)
    (h : (WEBHOOKS env).lookup table = some (some u)) : webhookFor env table = .url u := by
  simp [webhookFor, h]

theorem handler_rejects (env : Env) (i : Interaction) (result : Except JsError JsValue)
    (hc : i.isCommand = true) (hn : i.commandName = "update")
    (hw : (webhookFor env i.table).truthy = false) :
    handler env i result = ([Effect.reply (notConfiguredText i.table) true], .ok ()) := by
  simp [handler, hc, hn, hw]

/-! ## Shapes of the two extractions -/

theorem extractMessage_first (props : List (String × JsValue)) (rest : List JsValue)
    (m : JsValue) (hm : props.lookup "message" = some m) (ht : truthy m = true) :
    extractMessage (.array (.object props :: rest)) = .ok (m, Branch.firstElement) := by
  simp [extractMessage, isArray, arrayLength, first, getMessage, hm, ht, bind, Except.bind,
    pure, Except.pure]

theorem keywordHeuristic_string (s : String) :
    keywordHeuristic (.string s) =
      .ok (!(includes (toLowerCase s) "error" || includes (toLowerCase s) "failed" ||
        includes (toLowerCase s) "not found")) := by
  simp only [keywordHeuristic, callToLowerCase, bind, Except.bind, pure, Except.pure]
  cases includes (toLowerCase s) "error" <;> cases includes (toLowerCase s) "failed" <;>
    cases includes (toLowerCase s) "not found" <;> rfl

theorem extractErrorMessage_first (props : List (String × JsValue)) (rest : List JsValue)
    (m : JsValue) (hm : props.lookup "message" = some m) (ht : truthy m = true) :
    extractErrorMessage (some (.array (.object props :: rest))) = .ok m := by
  have hd : truthy (.array (.object props :: rest)) = true := rfl
  simp [extractErrorMessage, isArray, arrayLength, first, getMessage, hm, ht, hd, bind,
    Except.bind, pure, Except.pure]

theorem extractErrorMessage_direct (props : List (String × JsValue))
    (m : JsValue) (hm : props.lookup "message" = some m) (ht : truthy m = true) :
    extractErrorMessage (some (.object props)) = .ok m := by
  have hd : truthy (.object props) = true := rfl
  simp [extractErrorMessage, isArray, getMessage, hm, ht, hd, bind,
    Except.bind, pure, Except.pure]

theorem handler_failure (env : Env) (i : Interaction) (e : JsError)
    (hc : i.isCommand = true) (hn : i.commandName = "update")
    (hw : (webhookFor env i.table).truthy = true) :
    handler env i (.error e) =
      ([Effect.deferReply,
        Effect.editReply [pendingEmbed i.table i.id],
        Effect.post (webhookFor env i.table) (payload i)] ++ (catchBlock e).1,
       (catchBlock e).2) := by
  rw [handler_update env i _ hc hn hw]
  rfl

theorem extractMessage_shape (data : JsValue) :
    extractMessage data =
      match data with
      | .undefined => .error .typeError
      | .null => .error .typeError
      | .array (.undefined :: _) => .error .typeError
      | .array (.null :: _) => .error .typeError
      | .array (.object props :: _) =>
        if truthy ((props.lookup "message").getD .undefined) then
          .ok ((props.lookup "message").getD .undefined, Branch.firstElement)
        else .ok (defaultMessage, Branch.initial)
      | .object props =>
        if truthy ((props.lookup "message").getD .undefined) then
          .ok ((props.lookup "message").getD .undefined, Branch.direct)
        else .ok (defaultMessage, Branch.initial)
      | _ => .ok (defaultMessage, Branch.initial) := by
  cases data with
  | undefined => rfl
  | null => rfl
  | bool b => rfl
  | number q => rfl
  | string s => rfl
  | object props =>
    simp only [extractMessage, isArray, getMessage, bind, Except.bind, pure, Except.pure]
    cases truthy ((props.lookup "message").getD .undefined) <;> rfl
  | array elems =>
    cases elems with
    | nil => rfl
    | cons x rest =>
      cases x with
      | object props =>
        cases h : truthy ((props.lookup "message").getD .undefined) <;>
          simp [extractMessage, isArray, arrayLength, first, getMessage, bind, Except.bind,
            pure, Except.pure, h, truthy]
      | _ =>
        simp [extractMessage, isArray, arrayLength, first, getMessage, bind, Except.bind,
          pure, Except.pure, truthy]

theorem extractErrorMessage_shape (data : JsValue) :
    extractErrorMessage (some data) =
      match data with
      | .array (.undefined :: _) => .error .typeError
      | .array (.null :: _) => .error .typeError
      | .array (.object props :: _) =>
        if truthy ((props.lookup "message").getD .undefined) then
          .ok ((props.lookup "message").getD .undefined)
        else .ok fallbackMessage
      | .object props =>
        if truthy ((props.lookup "message").getD .undefined) then
          .ok ((props.lookup "message").getD .undefined)
        else .ok fallbackMessage
      | _ => .ok fallbackMessage := by
  cases data with
  | undefined => rfl
  | null => rfl
  | bool b => cases b <;> rfl
  | number q =>
    simp only [extractErrorMessage, truthy, isArray, getMessage, bind, Except.bind, pure,
      Except.pure]
    split <;> rfl
  | string s =>
    simp only [extractErrorMessage, truthy, isArray, getMessage, bind, Except.bind, pure,
      Except.pure]
    split <;> rfl
  | object props =>
    have hd : truthy (.object props) = true := rfl
    simp only [extractErrorMessage, hd, isArray, getMessage, bind, Except.bind, pure,
      Except.pure]
    cases truthy ((props.lookup "message").getD .undefined) <;> rfl
  | array elems =>
    cases elems with
    | nil => rfl
    | cons x rest =>
      cases x with
      | object props =>
        have hd : truthy (.array (.object props :: rest)) = true := rfl
        cases h : truthy ((props.lookup "message").getD .undefined) <;>
          simp [extractErrorMessage, hd, isArray, arrayLength, first, getMessage, bind,
            Except.bind, pure, Except.pure, h]
      | _ =>
        simp [extractErrorMessage, isArray, arrayLength, first, getMessage, bind,
          Except.bind, pure, Except.pure, truthy]

theorem extractMessage_error (data : JsValue) (e : JsError)
    (h : extractMessage data = .error e) : e = .typeError := by
  rw [extractMessage_shape] at h
  cases data with
  | undefined => cases h; rfl
  | null => cases h; rfl
  | bool b => cases h
  | number q => cases h
  | string s => cases h
  | object props =>
    simp only [] at h
    split at h <;> cases h
  | array elems =>
    cases elems with
    | nil => cases h
    | cons x rest =>
      cases x with
      | undefined => cases h; rfl
      | null => cases h; rfl
      | bool b => cases h
      | number q => cases h
      | string s => cases h
      | array ys => cases h
      | object props =>
        simp only [] at h
        split at h <;> cases h

theorem keywordHeuristic_error (message : JsValue) (e : JsError)
    (h : keywordHeuristic message = .error e) : e = .typeError := by
  cases message with
  | string s => rw [keywordHeuristic_string] at h; cases h
  | _ => cases h; rfl

theorem processResponse_error (data : JsValue) (e : JsError)
    (h : processResponse data = .error e) : e = .typeError := by
  unfold processResponse at h
  cases hx : extractMessage data with
  | error e2 =>
    rw [hx] at h
    have := extractMessage_error data e2 hx
    cases h
    exact this
  | ok v =>
    obtain ⟨m, b⟩ := v
    rw [hx] at h
    cases b with
    | firstElement =>
      simp only [bind, Except.bind, pure, Except.pure] at h
      cases hk : keywordHeuristic m with
      | error e3 =>
        rw [hk] at h
        have := keywordHeuristic_error m e3 hk
        cases h
        exact this
      | ok s => rw [hk] at h; cases h
    | direct => cases h
    | initial => cases h

theorem extractErrorMessage_error (d : JsValue) (e : JsError)
    (h : extractErrorMessage (some d) = .error e) :
    ∃ rest, d = .array (.null :: rest) ∨ d = .array (.undefined :: rest) := by
  rw [extractErrorMessage_shape] at h
  cases d with
  | undefined => cases h
  | null => cases h
  | bool b => cases h
  | number q => cases h
  | string s => cases h
  | object props =>
    simp only [] at h
    split at h <;> cases h
  | array elems =>
    cases elems with
    | nil => cases h
    | cons x rest =>
      cases x with
      | undefined => exact ⟨rest, Or.inr rfl⟩
      | null => exact ⟨rest, Or.inl rfl⟩
      | bool b => cases h
      | number q => cases h
      | string s => cases h
      | array ys => cases h
      | object props =>
        simp only [] at h
        split at h <;> cases h

/-! ## The check of a description -/

theorem utf16Length_pos (s : String) (h : s ≠ "") : 1 ≤ utf16Length s := by
  obtain ⟨data⟩ := s
  cases data with
  | nil => exact absurd rfl h
  | cons c cs =>
    simp only [utf16Length, List.map_cons, List.sum_cons]
    split <;> omega

theorem utf16Length_longText : utf16Length longText = 4097 := by
  have h : (if 'a'.toNat < 0x10000 then 1 else 2) = 1 := by decide
  simp only [utf16Length, longText, List.map_replicate, h, List.sum_replicate, smul_eq_mul,
    mul_one]

theorem longText_truthy : truthy (.string longText) = true := by
  simp [truthy, longText]

theorem longText_rejected : EmbedBuilder.descriptionPredicate (.string longText) = false := by
  simp [EmbedBuilder.descriptionPredicate, utf16Length_longText]

theorem resultEmbed_string (table : String) (id : Int) (s : String) (success : Bool)
    (h1 : 1 ≤ utf16Length s) (h2 : utf16Length s ≤ 4096) :
    resultEmbed table id (.string s) success =
      .ok { title := some "Update Request Completed",
            description := some (.string s),
            color := some (if success then 0x00FF00 else 0xFFA500),
            fields := [],
            timestamp := true } := by
  cases success <;>
    simp [resultEmbed, EmbedBuilder.setDescription, EmbedBuilder.descriptionPredicate, h1, h2,
      EmbedBuilder.setTimestamp, EmbedBuilder.setColor, EmbedBuilder.setDescriptionText,
      EmbedBuilder.setTitle, EmbedBuilder.new, green, orange]

theorem resultEmbed_rejected (table : String) (id : Int) (message : JsValue) (success : Bool)
    (h : EmbedBuilder.descriptionPredicate message = false) :
    resultEmbed table id message success = .error .validationError := by
  simp [resultEmbed, EmbedBuilder.setDescription, h]

theorem resultEmbed_error (table : String) (id : Int) (message : JsValue) (success : Bool)
    (e : JsError) (h : resultEmbed table id message success = .error e) :
    e = .validationError := by
  cases hp : EmbedBuilder.descriptionPredicate message with
  | false =>
    rw [resultEmbed_rejected table id message success hp] at h
    cases h
    rfl
  | true =>
    simp only [resultEmbed, EmbedBuilder.setDescription, hp, if_true] at h
    split at h <;> cases h

theorem errorEmbed_string (s : String)
    (h1 : 1 ≤ utf16Length s) (h2 : utf16Length s ≤ 4096) :
    errorEmbed (.string s) =
      .ok { title := some "❌ Update Failed",
            description := some (.string s),
            color := some 0xFF0000,
            fields := [],
            timestamp := true } := by
  simp [errorEmbed, EmbedBuilder.setDescription, EmbedBuilder.descriptionPredicate, h1, h2,
    EmbedBuilder.setTimestamp, EmbedBuilder.setColor, EmbedBuilder.setTitle, EmbedBuilder.new,
    red, bind, Except.bind, pure, Except.pure]

theorem errorEmbed_rejected (message : JsValue)
    (h : EmbedBuilder.descriptionPredicate message = false) :
    errorEmbed message = .error .validationError := by
  simp [errorEmbed, EmbedBuilder.setDescription, h, bind, Except.bind]

theorem catchBlock_fallback (e : JsError) (h : e.response = none) :
    catchBlock e = ([Effect.editReply [fallbackEmbed]], .ok ()) := by
  simp only [catchBlock, h]
  rfl

/-! ## Shapes of a run -/

theorem isEmptyResponse_false (data : JsValue) (ht : truthy data = true)
    (ha : data ≠ .array []) (ho : data ≠ .object []) : isEmptyResponse data = false := by
  cases data with
  | undefined => simp [truthy] at ht
  | null => simp [truthy] at ht
  | bool b => simp [isEmptyResponse, ht, isArray, typeofObject]
  | number q => simp [isEmptyResponse, ht, isArray, typeofObject]
  | string s => simp [isEmptyResponse, ht, isArray, typeofObject]
  | array elems =>
    cases elems with
    | nil => exact absurd rfl ha
    | cons x rest => simp [isEmptyResponse, truthy, isArray, arrayLength, typeofObject, keysLength]
  | object props =>
    cases props with
    | nil => exact absurd rfl ho
    | cons x rest => simp [isEmptyResponse, truthy, isArray, typeofObject, keysLength]

theorem handler_success (env : Env) (i : Interaction) (data : JsValue) (s : String)
    (success : Bool)
    (hc : i.isCommand = true) (hn : i.commandName = "update")
    (hw : (webhookFor env i.table).truthy = true)
    (hne : isEmptyResponse data = false)
    (hp : processResponse data = .ok (.string s, success))
    (h1 : 1 ≤ utf16Length s) (h2 : utf16Length s ≤ 4096) :
    handler env i (.ok data) =
      ([Effect.deferReply,
        Effect.editReply [pendingEmbed i.table i.id],
        Effect.post (webhookFor env i.table) (payload i),
        Effect.editReply
          [{ title := some "Update Request Completed",
             description := some (.string s),
             color := some (if success then 0x00FF00 else 0xFFA500),
             fields := [],
             timestamp := true }]],
       .ok ()) := by
  rw [handler_update env i _ hc hn hw]
  simp only [tryBlock, hne, hp, resultEmbed_string i.table i.id s success h1 h2]
  rfl

theorem handler_description_rejected (env : Env) (i : Interaction) (data message : JsValue)
    (success : Bool)
    (hc : i.isCommand = true) (hn : i.commandName = "update")
    (hw : (webhookFor env i.table).truthy = true)
    (hne : isEmptyResponse data = false)
    (hp : processResponse data = .ok (message, success))
    (hd : EmbedBuilder.descriptionPredicate message = false) :
    handler env i (.ok data) =
      ([Effect.deferReply,
        Effect.editReply [pendingEmbed i.table i.id],
        Effect.post (webhookFor env i.table) (payload i),
        Effect.editReply [fallbackEmbed]],
       .ok ()) := by
  rw [handler_update env i _ hc hn hw]
  simp only [tryBlock, hne, hp, resultEmbed_rejected i.table i.id message success hd]
  rfl

theorem handler_failure_rejected (env : Env) (i : Interaction) (body message : JsValue)
    (hc : i.isCommand = true) (hn : i.commandName = "update")
    (hw : (webhookFor env i.table).truthy = true)
    (hx : extractErrorMessage (some body) = .ok message)
    (hd : EmbedBuilder.descriptionPredicate message = false) :
    handler env i (.error (.requestError (some body))) =
      ([Effect.deferReply,
        Effect.editReply [pendingEmbed i.table i.id],
        Effect.post (webhookFor env i.table) (payload i)],
       .error .validationError) := by
  rw [handler_failure env i _ hc hn hw]
  simp only [catchBlock, JsError.response, hx, errorEmbed_rejected message hd]
  rfl

theorem processResponse_initial (data : JsValue)
    (h : extractMessage data = .ok (defaultMessage, Branch.initial)) :
    processResponse data = .ok (.string "Request processed.", true) := by
  simp [processResponse, h, bind, Except.bind, pure, Except.pure, defaultMessage]

theorem tryBlock_posts_once (env : Env) (i : Interaction) (result : Except JsError JsValue) :
    (tryBlock env i result).1.filter Effect.isPost =
      [Effect.post (webhookFor env i.table) (payload i)] := by
  unfold tryBlock
  cases result with
  | error e => rfl
  | ok data =>
    simp only []
    split
    · rfl
    · split
      · rfl
      · split <;> rfl

theorem catchBlock_posts_none (e : JsError) :
    (catchBlock e).1.filter Effect.isPost = [] := by
  unfold catchBlock
  split
  · rfl
  · split <;> rfl

/-! ## C1: the status-message lifecycle -/

/-- The lifecycle is complete on every successful response, of whatever shape,
and on every failure that carries no response: an accepted command yields one
pending message before the POST, one terminal message after it, and the handler
returns normally. -/
theorem lifecycle_complete (env : Env) (i : Interaction) (result : Except JsError JsValue)
    (hc : i.isCommand = true) (hn : i.commandName = "update")
    (hw : (webhookFor env i.table).truthy = true)
    (hres : (∃ data, result = .ok data) ∨ (∃ e, result = .error e ∧ e.response = none)) :
    pendingCount (handler env i result).1 = 1 ∧
    terminalCount (handler env i result).1 = 1 ∧
    (handler env i result).2 = .ok () := by
  rcases hres with ⟨data, rfl⟩ | ⟨e, rfl, he⟩
  · rw [handler_update env i _ hc hn hw]
    cases hem : isEmptyResponse data with
    | true =>
      simp only [tryBlock, hem]
      exact ⟨rfl, rfl, rfl⟩
    | false =>
      cases hp : processResponse data with
      | error e =>
        have := processResponse_error data e hp
        subst this
        simp only [tryBlock, hem, hp]
        exact ⟨rfl, rfl, rfl⟩
      | ok v =>
        obtain ⟨message, success⟩ := v
        cases hr : resultEmbed i.table i.id message success with
        | error e =>
          have := resultEmbed_error i.table i.id message success e hr
          subst this
          simp only [tryBlock, hem, hp, hr]
          exact ⟨rfl, rfl, rfl⟩
        | ok embed =>
          simp only [tryBlock, hem, hp, hr]
          exact ⟨rfl, rfl, rfl⟩
  · rw [handler_failure env i e hc hn hw, catchBlock_fallback e he]
    exact ⟨rfl, rfl, rfl⟩

/-- Claim C1, the code at the failing input.  An accepted command whose POST
fails with the error body `[null]`: one pending message precedes the POST, no
terminal message follows it, and a `TypeError` raised inside the `catch` block
(line 189, `error.response.data[0].message` on `null`) escapes the handler. -/
theorem null_error_element_leaves_pending :
    pendingCount
      (handler sampleEnv sampleInteraction
        (.error (.requestError (some (.array [.null]))))).1 = 1 ∧
    terminalCount
      (handler sampleEnv sampleInteraction
        (.error (.requestError (some (.array [.null]))))).1 = 0 ∧
    (handler sampleEnv sampleInteraction
        (.error (.requestError (some (.array [.null]))))).2 = .error .typeError :=
  ⟨rfl, rfl, rfl⟩

/-! ## C2: keyword heuristic on the object form -/

/-- Claim C2, the code at the failing input.  For the successful response
`{"message":"Error: not found"}` the terminal message carries the message
verbatim but its colour is green (success), although the lower-cased message
contains the keyword "error": the keyword test of lines 157-161 sits inside the
array branch and is not run for the object form (lines 162-165). -/
theorem object_keyword_message_is_green :
    handler sampleEnv sampleInteraction
        (.ok (.object [("message", .string "Error: not found")])) =
      ([Effect.deferReply,
        Effect.editReply [pendingEmbed "tf2_rgl_seasons" 42],
        Effect.post (.url "https://n8n.example/webhook/rgl") (payload sampleInteraction),
        Effect.editReply
          [{ title := some "Update Request Completed",
             description := some (.string "Error: not found"),
             color := some 0x00FF00,
             fields := [],
             timestamp := true }]],
       .ok ()) ∧
    includes (toLowerCase "Error: not found") "error" = true := by
  exact ⟨rfl, by decide⟩

/-! ## C3: unconfigured tables -/

/-- Claim C3, the code at the failing input.  The table `constructor` is not a
key of `WEBHOOKS`, so no webhook exists for it; yet `WEBHOOKS['constructor']`
is the inherited `Object` function, which is truthy, and the check of line 85
lets the command through.  The handler defers the reply, emits the pending
message, issues the POST and ends with a terminal message; its effects are not
the single rejection reply. -/
theorem unlisted_table_not_rejected :
    (WEBHOOKS sampleEnv).lookup "constructor" = none ∧
    handler sampleEnv (unlistedInteraction "constructor") (.error (.requestError none)) =
      ([Effect.deferReply,
        Effect.editReply [pendingEmbed "constructor" 42],
        Effect.post (.inherited "constructor") (payload (unlistedInteraction "constructor")),
        Effect.editReply [fallbackEmbed]], .ok ()) ∧
    (handler sampleEnv (unlistedInteraction "constructor") (.error (.requestError none))).1 ≠
      [Effect.reply "Error: Table 'constructor' is not configured for updates." true] := by
  refine ⟨by decide, rfl, ?_⟩
  intro h
  have h2 := congrArg List.length h
  revert h2
  decide

/-- The check of line 85 does reject a table that is neither a key of `WEBHOOKS`
nor a name found on `Object.prototype`: the only effect is the ephemeral reply
naming the table. -/
theorem unlisted_table_rejected (env : Env) (i : Interaction)
    (result : Except JsError JsValue)
    (hc : i.isCommand = true) (hn : i.commandName = "update")
    (hkey : (WEBHOOKS env).lookup i.table = none)
    (hproto : i.table ∉ objectPrototypeNames) :
    handler env i result =
      ([Effect.reply ("Error: Table '" ++ i.table ++ "' is not configured for updates.") true],
        .ok ()) := by
  have hw : (webhookFor env i.table).truthy = false := by
    simp [webhookFor, hkey, hproto, PropValue.truthy]
  simpa [notConfiguredText] using handler_rejects env i result hc hn hw

/-! ## C4: array responses -/

/-- Claim C4, counterexample.  The successful response `[{"message": m}]` with
`m` a string of 4097 characters: `m` is a non-empty string, but `setDescription`
(line 175) refuses a description longer than 4096, the exception is caught, and
the terminal message is the red "❌ Update Failed" with the fallback text, not
"Update Request Completed" with body `m`. -/
theorem overlong_array_message_fails :
    longText ≠ "" ∧ utf16Length longText = 4097 ∧
    handler sampleEnv sampleInteraction
        (.ok (.array [.object [("message", .string longText)]])) =
      sampleRun
        { title := some "❌ Update Failed",
          description := some (.string "There was an error processing your request."),
          color := some 0xFF0000,
          fields := [],
          timestamp := true } := by
  refine ⟨by simp [longText], utf16Length_longText, ?_⟩
  have hp : processResponse (.array [.object [("message", .string longText)]]) =
      .ok (.string longText, !(includes (toLowerCase longText) "error" ||
        includes (toLowerCase longText) "failed" ||
        includes (toLowerCase longText) "not found")) := by
    simp only [processResponse,
      extractMessage_first [("message", .string longText)] [] _ rfl longText_truthy,
      keywordHeuristic_string, bind, Except.bind, pure, Except.pure]
  exact handler_description_rejected sampleEnv sampleInteraction _ _ _ rfl rfl rfl rfl hp
    longText_rejected

/-- Claim C4, amended.  For an accepted command and a successful response that
is a non-empty array whose first element has the non-empty string `message` `m`
of at most 4096 UTF-16 code units, the run is: deferred reply, pending message,
POST, and one terminal message with title "Update Request Completed", body `m`
verbatim, and colour orange (0xFFA500) when the lower-cased `m` contains
"error", "failed" or "not found", green (0x00FF00) otherwise.  In particular
`[{"message":"Added record 42"}]` yields body "Added record 42" in green. -/
theorem array_message_classified (env : Env) (i : Interaction)
    (props : List (String × JsValue)) (rest : List JsValue) (m : String)
    (hc : i.isCommand = true) (hn : i.commandName = "update")
    (hw : (webhookFor env i.table).truthy = true)
    (hm : props.lookup "message" = some (.string m)) (hne : m ≠ "")
    (hlen : utf16Length m ≤ 4096) :
    handler env i (.ok (.array (.object props :: rest))) =
      ([Effect.deferReply,
        Effect.editReply [pendingEmbed i.table i.id],
        Effect.post (webhookFor env i.table) (payload i),
        Effect.editReply
          [{ title := some "Update Request Completed",
             description := some (.string m),
             color := some
               (if includes (toLowerCase m) "error" || includes (toLowerCase m) "failed" ||
                   includes (toLowerCase m) "not found"
                then 0xFFA500 else 0x00FF00),
             fields := [],
             timestamp := true }]],
       .ok ()) ∧
    handler env i (.ok (.array [.object [("message", .string "Added record 42")]])) =
      ([Effect.deferReply,
        Effect.editReply [pendingEmbed i.table i.id],
        Effect.post (webhookFor env i.table) (payload i),
        Effect.editReply
          [{ title := some "Update Request Completed",
             description := some (.string "Added record 42"),
             color := some 0x00FF00,
             fields := [],
             timestamp := true }]],
       .ok ()) := by
  have key : ∀ (props : List (String × JsValue)) (rest : List JsValue) (m : String),
      props.lookup "message" = some (.string m) → m ≠ "" → utf16Length m ≤ 4096 →
      handler env i (.ok (.array (.object props :: rest))) =
      ([Effect.deferReply,
        Effect.editReply [pendingEmbed i.table i.id],
        Effect.post (webhookFor env i.table) (payload i),
        Effect.editReply
          [{ title := some "Update Request Completed",
             description := some (.string m),
             color := some
               (if includes (toLowerCase m) "error" || includes (toLowerCase m) "failed" ||
                   includes (toLowerCase m) "not found"
                then 0xFFA500 else 0x00FF00),
             fields := [],
             timestamp := true }]],
       .ok ()) := by
    intro props rest m hm hne hlen
    have ht : truthy (.string m) = true := by simp [truthy, hne]
    have hp : processResponse (.array (.object props :: rest)) =
        .ok (.string m, !(includes (toLowerCase m) "error" ||
          includes (toLowerCase m) "failed" || includes (toLowerCase m) "not found")) := by
      simp only [processResponse, extractMessage_first props rest _ hm ht,
        keywordHeuristic_string, bind, Except.bind, pure, Except.pure]
    have he : isEmptyResponse (.array (.object props :: rest)) = false := by
      simp [isEmptyResponse, truthy, isArray, arrayLength, typeofObject, keysLength]
    have hrun := handler_success env i _ m _ hc hn hw he hp (utf16Length_pos m hne) hlen
    rw [hrun]
    cases (includes (toLowerCase m) "error" || includes (toLowerCase m) "failed" ||
          includes (toLowerCase m) "not found") <;> rfl
  refine ⟨key props rest m hm hne hlen, ?_⟩
  have h := key [("message", .string "Added record 42")] [] "Added record 42" rfl
    (by decide) (by decide)
  have hk : (includes (toLowerCase "Added record 42") "error" ||
      includes (toLowerCase "Added record 42") "failed" ||
      includes (toLowerCase "Added record 42") "not found") = false := by decide
  rw [hk] at h
  exact h

/-- Witness of C4, amended: `[{"message":"Record 42 not found"}]` is shown in
orange. -/
theorem array_message_classified_witness :
    handler sampleEnv sampleInteraction
        (.ok (.array [.object [("message", .string "Record 42 not found")]])) =
      ([Effect.deferReply,
        Effect.editReply [pendingEmbed "tf2_rgl_seasons" 42],
        Effect.post (.url "https://n8n.example/webhook/rgl") (payload sampleInteraction),
        Effect.editReply
          [{ title := some "Update Request Completed",
             description := some (.string "Record 42 not found"),
             color := some 0xFFA500,
             fields := [],
             timestamp := true }]],
       .ok ()) :=
  (array_message_classified sampleEnv sampleInteraction
    [("message", .string "Record 42 not found")] [] "Record 42 not found"
    rfl rfl rfl rfl (by decide) (by decide)).1

/-! ## C5: empty responses -/

/-- Claim C5.  For an accepted command and a successful response whose body is
absent (`undefined`, `null` or the empty string), `[]` or an object without
keys, the run is: deferred reply, pending message, POST, and one terminal
message whose body is "The workflow completed but returned no response data."
in red (0xFF0000); nothing follows, the handler returns. -/
theorem empty_response_reported (env : Env) (i : Interaction) (data : JsValue)
    (hc : i.isCommand = true) (hn : i.commandName = "update")
    (hw : (webhookFor env i.table).truthy = true)
    (hd : data = .undefined ∨ data = .null ∨ data = .string "" ∨ data = .array [] ∨
      data = .object []) :
    handler env i (.ok data) =
      ([Effect.deferReply,
        Effect.editReply [pendingEmbed i.table i.id],
        Effect.post (webhookFor env i.table) (payload i),
        Effect.editReply
          [{ title := some "❌ Update Request Issue",
             description := some (.string "The workflow completed but returned no response data."),
             color := some 0xFF0000,
             fields := [{ name := "Suggestion",
                          value := "Please check the backend workflow for errors or missing response nodes.",
                          inline := none }],
             timestamp := true }]],
       .ok ()) := by
  rw [handler_update env i _ hc hn hw]
  rcases hd with h | h | h | h | h <;> subst h <;> rfl

/-- Witness of C5: the response body is an object without keys. -/
theorem empty_response_reported_witness :
    handler sampleEnv sampleInteraction (.ok (.object [])) =
      ([Effect.deferReply,
        Effect.editReply [pendingEmbed "tf2_rgl_seasons" 42],
        Effect.post (.url "https://n8n.example/webhook/rgl") (payload sampleInteraction),
        Effect.editReply
          [{ title := some "❌ Update Request Issue",
             description := some (.string "The workflow completed but returned no response data."),
             color := some 0xFF0000,
             fields := [{ name := "Suggestion",
                          value := "Please check the backend workflow for errors or missing response nodes.",
                          inline := none }],
             timestamp := true }]],
       .ok ()) :=
  empty_response_reported sampleEnv sampleInteraction (.object []) rfl rfl rfl
    (Or.inr (Or.inr (Or.inr (Or.inr rfl))))

/-! ## C6: transport failures with a message -/

/-- Claim C6, counterexample.  Three transport failures whose error body has a
non-empty `message`.  With `[{"message":"Invalid id"}]` the terminal message
has body "Invalid id" in red, but its title is "❌ Update Failed" (line 202),
not "Update Failed".  With `{"message":42}` and with `[{"message": m}]`, `m` a
string of 4097 characters, `setDescription` (line 203) refuses the message
inside the `catch` block, the exception escapes the handler, and no terminal
message is emitted. -/
theorem failure_message_not_as_claimed :
    handler sampleEnv sampleInteraction
        (.error (.requestError (some (.array [.object [("message", .string "Invalid id")]])))) =
      sampleRun
        { title := some "❌ Update Failed",
          description := some (.string "Invalid id"),
          color := some 0xFF0000,
          fields := [],
          timestamp := true } ∧
    handler sampleEnv sampleInteraction
        (.error (.requestError (some (.array [.object [("message", .string "Invalid id")]])))) ≠
      sampleRun
        { title := some "Update Failed",
          description := some (.string "Invalid id"),
          color := some 0xFF0000,
          fields := [],
          timestamp := true } ∧
    handler sampleEnv sampleInteraction
        (.error (.requestError (some (.object [("message", .number 42)])))) =
      sampleRunEscaping .validationError ∧
    handler sampleEnv sampleInteraction
        (.error (.requestError (some (.array [.object [("message", .string longText)]])))) =
      sampleRunEscaping .validationError := by
  have h1 : handler sampleEnv sampleInteraction
        (.error (.requestError (some (.array [.object [("message", .string "Invalid id")]])))) =
      sampleRun
        { title := some "❌ Update Failed",
          description := some (.string "Invalid id"),
          color := some 0xFF0000,
          fields := [],
          timestamp := true } := rfl
  refine ⟨h1, ?_, rfl, ?_⟩
  · rw [h1]
    intro h
    simp [sampleRun] at h
  · exact handler_failure_rejected sampleEnv sampleInteraction _ _ rfl rfl rfl
      (extractErrorMessage_first [("message", .string longText)] [] _ rfl longText_truthy)
      longText_rejected

/-- Claim C6, amended.  For an accepted command and a transport failure whose
error body is a non-empty array whose first element has a `message` `m`, or an
object with a `message` `m`, where `m` is a non-empty string of at most 4096
UTF-16 code units, the run ends with one terminal message with title
"❌ Update Failed", body `m` and colour red (0xFF0000). -/
theorem failure_message_reported (env : Env) (i : Interaction)
    (props : List (String × JsValue)) (rest : List JsValue) (m : String)
    (hc : i.isCommand = true) (hn : i.commandName = "update")
    (hw : (webhookFor env i.table).truthy = true)
    (hm : props.lookup "message" = some (.string m)) (hne : m ≠ "")
    (hlen : utf16Length m ≤ 4096) :
    ∀ body, body = JsValue.array (.object props :: rest) ∨ body = JsValue.object props →
    handler env i (.error (.requestError (some body))) =
      ([Effect.deferReply,
        Effect.editReply [pendingEmbed i.table i.id],
        Effect.post (webhookFor env i.table) (payload i),
        Effect.editReply
          [{ title := some "❌ Update Failed",
             description := some (.string m),
             color := some 0xFF0000,
             fields := [],
             timestamp := true }]],
       .ok ()) := by
  intro body hb
  have ht : truthy (.string m) = true := by simp [truthy, hne]
  have hemb := errorEmbed_string m (utf16Length_pos m hne) hlen
  rw [handler_failure env i _ hc hn hw]
  rcases hb with hb | hb <;> subst hb
  · simp only [catchBlock, JsError.response, extractErrorMessage_first props rest _ hm ht, hemb]
    rfl
  · simp only [catchBlock, JsError.response, extractErrorMessage_direct props _ hm ht, hemb]
    rfl

/-- Witness of C6, amended: the error body is a single object. -/
theorem failure_message_reported_witness :
    handler sampleEnv sampleInteraction
        (.error (.requestError (some (.object [("message", .string "Workflow timed out")])))) =
      ([Effect.deferReply,
        Effect.editReply [pendingEmbed "tf2_rgl_seasons" 42],
        Effect.post (.url "https://n8n.example/webhook/rgl") (payload sampleInteraction),
        Effect.editReply
          [{ title := some "❌ Update Failed",
             description := some (.string "Workflow timed out"),
             color := some 0xFF0000,
             fields := [],
             timestamp := true }]],
       .ok ()) :=
  failure_message_reported sampleEnv sampleInteraction
    [("message", .string "Workflow timed out")] [] "Workflow timed out"
    rfl rfl rfl rfl (by decide) (by decide) _ (Or.inr rfl)

/-! ## C7: transport failures without a message -/

/-- The fallback text is used outside the defect recorded for C7: no response, a
falsy body, an empty array, a first element that is not `null` / `undefined`
and has no truthy `message`, or a non-array body without a truthy `message`. -/
theorem no_message_falls_back (env : Env) (i : Interaction) (e : JsError)
    (hc : i.isCommand = true) (hn : i.commandName = "update")
    (hw : (webhookFor env i.table).truthy = true)
    (hno : e.response = none ∨ ∃ d, e.response = some d ∧
      (truthy d = false ∨ d = .array [] ∨
        (∃ x rest m, d = .array (x :: rest) ∧ getMessage x = .ok m ∧ truthy m = false) ∨
        (∃ m, isArray d = false ∧ getMessage d = .ok m ∧ truthy m = false))) :
    handler env i (.error e) =
      ([Effect.deferReply,
        Effect.editReply [pendingEmbed i.table i.id],
        Effect.post (webhookFor env i.table) (payload i),
        Effect.editReply
          [{ title := some "❌ Update Failed",
             description := some (.string "There was an error processing your request."),
             color := some 0xFF0000,
             fields := [],
             timestamp := true }]],
       .ok ()) := by
  have hx : extractErrorMessage e.response = .ok fallbackMessage := by
    rcases hno with h | ⟨d, h, hd⟩
    · rw [h]; rfl
    · rw [h]
      rcases hd with hd | hd | ⟨x, rest, m, hd, hg, ht⟩ | ⟨m, ha, hg, ht⟩
      · simp [extractErrorMessage, hd, pure, Except.pure]
      · subst hd; rfl
      · subst hd
        have htd : truthy (.array (x :: rest)) = true := rfl
        simp [extractErrorMessage, htd, isArray, arrayLength, first, hg, ht, bind, Except.bind,
          pure, Except.pure]
      · cases htd : truthy d
        · simp [extractErrorMessage, htd, pure, Except.pure]
        · simp [extractErrorMessage, htd, ha, hg, ht, bind, Except.bind, pure, Except.pure]
  rw [handler_failure env i e hc hn hw]
  simp only [catchBlock, hx]
  rfl

/-- Claim C7, the code at the failing input.  A transport failure whose error
body is `[null]`, an array whose first element is `null`: the run ends after
the POST with an escaping `TypeError`; no message with the fallback text, and
no terminal message at all, is emitted. -/
theorem null_error_element_no_fallback :
    handler sampleEnv sampleInteraction
        (.error (.requestError (some (.array [.null])))) =
      ([Effect.deferReply,
        Effect.editReply [pendingEmbed "tf2_rgl_seasons" 42],
        Effect.post (.url "https://n8n.example/webhook/rgl") (payload sampleInteraction)],
       .error .typeError) :=
  rfl

/-! ## C8: non-empty responses -/

/-- Claim C8, counterexample.  Five successful responses, none of them absent,
`[]` or an object without keys.  `[null]` and `[{"message":42}]` raise a
`TypeError` in the `try` block (line 152, line 157); `{"message":42}` and
`{"message": m}`, `m` a string of 4097 characters, are refused by
`setDescription` (line 175); these four end with the red "❌ Update Failed"
message and the fallback text.  The body `false` is falsy, so line 126 takes it
for an empty response and the terminal message is the red
"❌ Update Request Issue". -/
theorem nonempty_response_not_completed :
    fallbackEmbed.title = some "❌ Update Failed" ∧ fallbackEmbed.color = some 0xFF0000 ∧
    handler sampleEnv sampleInteraction (.ok (.array [.null])) = sampleRun fallbackEmbed ∧
    handler sampleEnv sampleInteraction (.ok (.array [.object [("message", .number 42)]])) =
      sampleRun fallbackEmbed ∧
    handler sampleEnv sampleInteraction (.ok (.object [("message", .number 42)])) =
      sampleRun fallbackEmbed ∧
    handler sampleEnv sampleInteraction (.ok (.object [("message", .string longText)])) =
      sampleRun fallbackEmbed ∧
    handler sampleEnv sampleInteraction (.ok (.bool false)) =
      sampleRun
        { title := some "❌ Update Request Issue",
          description := some (.string "The workflow completed but returned no response data."),
          color := some 0xFF0000,
          fields := [{ name := "Suggestion",
                       value := "Please check the backend workflow for errors or missing response nodes.",
                       inline := none }],
          timestamp := true } := by
  refine ⟨rfl, rfl, rfl, rfl, rfl, ?_, rfl⟩
  have hx : extractMessage (.object [("message", .string longText)]) =
      .ok (.string longText, Branch.direct) := by
    rw [extractMessage_shape]
    simp [List.lookup, longText_truthy]
  have hp : processResponse (.object [("message", .string longText)]) =
      .ok (.string longText, true) := by
    simp only [processResponse, hx, bind, Except.bind, pure, Except.pure]
  exact handler_description_rejected sampleEnv sampleInteraction _ _ _ rfl rfl rfl rfl hp
    longText_rejected

/-- Claim C8, amended.  For an accepted command and a successful response whose
body is truthy (not absent, not `0`, not `false`), not `[]` and not an object
without keys, where the first element of an array body is not `null` /
`undefined`, and where the `message` of that first element, or of an object
body, is a string of at most 4096 UTF-16 code units whenever it is truthy: the
run ends with one terminal message with title "Update Request Completed",
colour green or orange, and body the extracted message, namely the truthy
`message` of the first element of an array, else the truthy `message` of an
object, else "Request processed.". -/
theorem nonempty_response_completed (env : Env) (i : Interaction) (data : JsValue)
    (hc : i.isCommand = true) (hn : i.commandName = "update")
    (hw : (webhookFor env i.table).truthy = true)
    (htruthy : truthy data = true) (harr : data ≠ .array []) (hobj : data ≠ .object [])
    (hnull : ∀ rest, data ≠ .array (.null :: rest) ∧ data ≠ .array (.undefined :: rest))
    (hfirst : ∀ props rest m, data = .array (.object props :: rest) →
      props.lookup "message" = some m → truthy m = true →
      ∃ s, m = .string s ∧ utf16Length s ≤ 4096)
    (hdirect : ∀ props m, data = .object props →
      props.lookup "message" = some m → truthy m = true →
      ∃ s, m = .string s ∧ utf16Length s ≤ 4096) :
    ∃ c, (c = 0x00FF00 ∨ c = 0xFFA500) ∧
      handler env i (.ok data) =
        ([Effect.deferReply,
          Effect.editReply [pendingEmbed i.table i.id],
          Effect.post (webhookFor env i.table) (payload i),
          Effect.editReply
            [{ title := some "Update Request Completed",
               description := some
                 (match data with
                  | .array (.object props :: _) =>
                    if truthy ((props.lookup "message").getD .undefined) then
                      (props.lookup "message").getD .undefined
                    else .string "Request processed."
                  | .object props =>
                    if truthy ((props.lookup "message").getD .undefined) then
                      (props.lookup "message").getD .undefined
                    else .string "Request processed."
                  | _ => .string "Request processed."),
               color := some c,
               fields := [],
               timestamp := true }]],
         .ok ()) := by
  have hne : isEmptyResponse data = false := isEmptyResponse_false data htruthy harr hobj
  have hinit : ∀ d : JsValue, isEmptyResponse d = false →
      extractMessage d = .ok (defaultMessage, Branch.initial) →
      handler env i (.ok d) =
        ([Effect.deferReply,
          Effect.editReply [pendingEmbed i.table i.id],
          Effect.post (webhookFor env i.table) (payload i),
          Effect.editReply
            [{ title := some "Update Request Completed",
               description := some (.string "Request processed."),
               color := some 0x00FF00,
               fields := [],
               timestamp := true }]],
         .ok ()) := by
    intro d hd he
    exact handler_success env i d "Request processed." true hc hn hw hd
      (processResponse_initial d he) (by decide) (by decide)
  have hshape := extractMessage_shape data
  cases data with
  | undefined => simp [truthy] at htruthy
  | null => simp [truthy] at htruthy
  | bool b => exact ⟨0x00FF00, Or.inl rfl, hinit _ hne hshape⟩
  | number q => exact ⟨0x00FF00, Or.inl rfl, hinit _ hne hshape⟩
  | string s => exact ⟨0x00FF00, Or.inl rfl, hinit _ hne hshape⟩
  | object props =>
    simp only [] at hshape ⊢
    cases ht : truthy ((props.lookup "message").getD .undefined)
    · simp only [ht, Bool.false_eq_true, if_true, if_false] at hshape
      exact ⟨0x00FF00, Or.inl rfl, by simpa using hinit _ hne hshape⟩
    · simp only [ht, Bool.false_eq_true, if_true, if_false] at hshape
      cases hl : props.lookup "message" with
      | none => simp [hl, truthy] at ht
      | some m =>
        rw [hl] at ht hshape
        simp only [Option.getD_some] at ht hshape ⊢
        obtain ⟨s, hs, hlen⟩ := hdirect props m rfl hl ht
        subst hs
        have hs1 : 1 ≤ utf16Length s :=
          utf16Length_pos s (by simpa [truthy] using ht)
        have hp : processResponse (.object props) = .ok (.string s, true) := by
          simp [processResponse, hshape, bind, Except.bind, pure, Except.pure]
        exact ⟨0x00FF00, Or.inl rfl,
          by simpa using handler_success env i _ s true hc hn hw hne hp hs1 hlen⟩
  | array elems =>
    cases elems with
    | nil => exact absurd rfl harr
    | cons x rest =>
      cases x with
      | undefined => exact absurd rfl (hnull rest).2
      | null => exact absurd rfl (hnull rest).1
      | bool b => exact ⟨0x00FF00, Or.inl rfl, hinit _ hne hshape⟩
      | number q => exact ⟨0x00FF00, Or.inl rfl, hinit _ hne hshape⟩
      | string s => exact ⟨0x00FF00, Or.inl rfl, hinit _ hne hshape⟩
      | array ys => exact ⟨0x00FF00, Or.inl rfl, hinit _ hne hshape⟩
      | object props =>
        simp only [] at hshape ⊢
        cases ht : truthy ((props.lookup "message").getD .undefined)
        · simp only [ht, Bool.false_eq_true, if_true, if_false] at hshape
          exact ⟨0x00FF00, Or.inl rfl, by simpa using hinit _ hne hshape⟩
        · simp only [ht, Bool.false_eq_true, if_true, if_false] at hshape
          cases hl : props.lookup "message" with
          | none => simp [hl, truthy] at ht
          | some m =>
            rw [hl] at ht hshape
            simp only [Option.getD_some] at ht hshape ⊢
            obtain ⟨s, hs, hlen⟩ := hfirst props rest m rfl hl ht
            subst hs
            have hs1 : 1 ≤ utf16Length s :=
              utf16Length_pos s (by simpa [truthy] using ht)
            have hp : processResponse (.array (.object props :: rest)) =
                .ok (.string s, !(includes (toLowerCase s) "error" ||
                  includes (toLowerCase s) "failed" ||
                  includes (toLowerCase s) "not found")) := by
              simp only [processResponse, hshape, keywordHeuristic_string, bind, Except.bind,
                pure, Except.pure]
            have hrun := handler_success env i _ s _ hc hn hw hne hp hs1 hlen
            cases hk : (includes (toLowerCase s) "error" ||
                  includes (toLowerCase s) "failed" ||
                  includes (toLowerCase s) "not found")
            · rw [hk] at hrun
              exact ⟨0x00FF00, Or.inl rfl, by simpa using hrun⟩
            · rw [hk] at hrun
              exact ⟨0xFFA500, Or.inr rfl, by simpa using hrun⟩

/-- Witness of C8, amended: `[{"status":"ok"}]` yields the default text. -/
theorem nonempty_response_completed_witness :
    ∃ c, (c = 0x00FF00 ∨ c = 0xFFA500) ∧
      handler sampleEnv sampleInteraction (.ok (.array [.object [("status", .string "ok")]])) =
        ([Effect.deferReply,
          Effect.editReply [pendingEmbed "tf2_rgl_seasons" 42],
          Effect.post (.url "https://n8n.example/webhook/rgl") (payload sampleInteraction),
          Effect.editReply
            [{ title := some "Update Request Completed",
               description := some (.string "Request processed."),
               color := some c,
               fields := [],
               timestamp := true }]],
         .ok ()) :=
  nonempty_response_completed sampleEnv sampleInteraction
    (.array [.object [("status", .string "ok")]]) rfl rfl rfl rfl
    (by simp) (by simp)
    (fun _ => ⟨by simp, by simp⟩)
    (by
      intro props rest m h hl _
      simp only [JsValue.array.injEq, List.cons.injEq, JsValue.object.injEq] at h
      obtain ⟨h1, _⟩ := h
      subst h1
      simp [List.lookup] at hl)
    (by
      intro props m h
      exact JsValue.noConfusion h)

/-! ## C9: the outbound request -/

/-- Claim C9.  For an accepted command (its table is a key of `WEBHOOKS` with a
non-empty endpoint `u`) and every outcome of the request, transport failure
included, the effects of the handler contain exactly one HTTP POST; it is
addressed to `u` and its body is the object with `table`, `id` and `user`,
where `user` has `id`, `username`, `tag` (username, "#", then the discriminator
or "0" when it is missing or empty) and `globalName` (or the username when it
is missing or empty). -/
theorem one_post_with_payload (env : Env) (i : Interaction) (u : String)
    (result : Except JsError JsValue)
    (hc : i.isCommand = true) (hn : i.commandName = "update")
    (hkey : (WEBHOOKS env).lookup i.table = some (some u)) (hu : u ≠ "") :
    (handler env i result).1.filter Effect.isPost =
      [Effect.post (.url u)
        (.object
          [("table", .string i.table),
           ("id", .number i.id),
           ("user", .object
              [("id", .string i.user.id),
               ("username", .string i.user.username),
               ("tag", .string (i.user.username ++ "#" ++
                  (match i.user.discriminator with
                   | none => "0"
                   | some d => if d ≠ "" then d else "0"))),
               ("globalName", .string
                  (match i.user.globalName with
                   | none => i.user.username
                   | some g => if g ≠ "" then g else i.user.username))])])] := by
  have hurl := webhookFor_url env i.table u hkey
  have hw : (webhookFor env i.table).truthy = true := by simp [hurl, PropValue.truthy, hu]
  rw [handler_update env i result hc hn hw]
  have h1 := tryBlock_posts_once env i result
  rw [hurl] at h1
  have hp : payload i = (.object
          [("table", .string i.table),
           ("id", .number i.id),
           ("user", .object
              [("id", .string i.user.id),
               ("username", .string i.user.username),
               ("tag", .string (i.user.username ++ "#" ++
                  (match i.user.discriminator with
                   | none => "0"
                   | some d => if d ≠ "" then d else "0"))),
               ("globalName", .string
                  (match i.user.globalName with
                   | none => i.user.username
                   | some g => if g ≠ "" then g else i.user.username))])]) := by
    unfold payload orString
    cases i.user.discriminator <;> cases i.user.globalName <;> rfl
  rw [hp] at h1
  rcases hres : tryBlock env i result with ⟨effects, outcome⟩
  rw [hres] at h1
  cases outcome with
  | ok v => cases v; simpa using h1
  | error e =>
    simp only [List.filter_append, catchBlock_posts_none, List.append_nil]
    simpa using h1

/-- Witness of C9: the sample command with a failing request. -/
theorem one_post_with_payload_witness :
    (handler sampleEnv sampleInteraction (.error (.requestError none))).1.filter Effect.isPost =
      [Effect.post (.url "https://n8n.example/webhook/rgl")
        (.object
          [("table", .string "tf2_rgl_seasons"),
           ("id", .number 42),
           ("user", .object
              [("id", .string "80351110224678912"),
               ("username", .string "nelly"),
               ("tag", .string "nelly#0"),
               ("globalName", .string "Nelly")])])] :=
  one_post_with_payload sampleEnv sampleInteraction "https://n8n.example/webhook/rgl"
    (.error (.requestError none)) rfl rfl rfl (by decide)

/-! ## C10: the two extractions agree -/

/-- Claim C10, counterexample.  The body `[null]` is not empty, yet on it the
extraction of the `catch` block (line 189) returns neither the message of the
success path nor its fallback: it raises a `TypeError`, as the extraction of
the success path does (line 152). -/
theorem null_element_breaks_both_extractions :
    isEmptyResponse (.array [.null]) = false ∧
    extractErrorMessage (some (.array [.null])) = .error .typeError ∧
    extractMessage (.array [.null]) = .error .typeError :=
  ⟨rfl, rfl, rfl⟩

/-- Claim C10, amended.  On every body that is not empty (not absent, not `[]`,
not an object without keys) and is not an array whose first element is `null` /
`undefined`, both extractions return, and the extraction of the `catch` block
(lines 184-193) follows that of the success path (lines 148-165): when the
success path keeps its default "Request processed." the error path keeps its
fallback "There was an error processing your request.", and otherwise the error
path returns the very message the success path returns. -/
theorem error_extraction_matches_success_extraction (body : JsValue)
    (hne : body ≠ .undefined ∧ body ≠ .null ∧ body ≠ .string "" ∧ body ≠ .array [] ∧
      body ≠ .object [])
    (hnull : ∀ rest, body ≠ .array (.null :: rest) ∧ body ≠ .array (.undefined :: rest)) :
    ∃ message branch errorMessage,
      extractMessage body = .ok (message, branch) ∧
      extractErrorMessage (some body) = .ok errorMessage ∧
      (if branch = Branch.initial then
        message = .string "Request processed." ∧
          errorMessage = .string "There was an error processing your request."
      else errorMessage = message) := by
  rw [extractMessage_shape, extractErrorMessage_shape]
  cases body with
  | undefined => exact absurd rfl hne.1
  | null => exact absurd rfl hne.2.1
  | bool b => exact ⟨_, _, _, rfl, rfl, by simp [defaultMessage, fallbackMessage]⟩
  | number q => exact ⟨_, _, _, rfl, rfl, by simp [defaultMessage, fallbackMessage]⟩
  | string s => exact ⟨_, _, _, rfl, rfl, by simp [defaultMessage, fallbackMessage]⟩
  | object props =>
    simp only []
    cases truthy ((props.lookup "message").getD .undefined)
    · exact ⟨_, _, _, rfl, rfl, by simp [defaultMessage, fallbackMessage]⟩
    · exact ⟨_, _, _, rfl, rfl, by simp⟩
  | array elems =>
    cases elems with
    | nil => exact ⟨_, _, _, rfl, rfl, by simp [defaultMessage, fallbackMessage]⟩
    | cons x rest =>
      cases x with
      | undefined => exact absurd rfl (hnull rest).2
      | null => exact absurd rfl (hnull rest).1
      | bool b => exact ⟨_, _, _, rfl, rfl, by simp [defaultMessage, fallbackMessage]⟩
      | number q => exact ⟨_, _, _, rfl, rfl, by simp [defaultMessage, fallbackMessage]⟩
      | string s => exact ⟨_, _, _, rfl, rfl, by simp [defaultMessage, fallbackMessage]⟩
      | array ys => exact ⟨_, _, _, rfl, rfl, by simp [defaultMessage, fallbackMessage]⟩
      | object props =>
        simp only []
        cases truthy ((props.lookup "message").getD .undefined)
        · exact ⟨_, _, _, rfl, rfl, by simp [defaultMessage, fallbackMessage]⟩
        · exact ⟨_, _, _, rfl, rfl, by simp⟩

/-- Witness of C10, amended: the body `[{"message":"Invalid id"}]`, on which
both extractions return "Invalid id". -/
theorem error_extraction_matches_success_extraction_witness :
    ∃ message branch errorMessage,
      extractMessage (.array [.object [("message", .string "Invalid id")]]) =
        .ok (message, branch) ∧
      extractErrorMessage (some (.array [.object [("message", .string "Invalid id")]])) =
        .ok errorMessage ∧
      (if branch = Branch.initial then
        message = .string "Request processed." ∧
          errorMessage = .string "There was an error processing your request."
      else errorMessage = message) :=
  error_extraction_matches_success_extraction
    (.array [.object [("message", .string "Invalid id")]])
    ⟨by simp, by simp, by simp, by simp, by simp⟩
    (fun _ => ⟨by simp, by simp⟩)

end Autobot
